import Mathlib

/-!
Verification development for the BarangayCare request (complaint) core.

The definitions below are a shallow embedding of:
  * src/components/resident-settings.tsx (ComplaintProvider: fetchComplaints,
    addComplaint, updateComplaint — the file also holds the complaint-manager
    context consumed by App.tsx),
  * src/utils/supabase/setup-database.sql (the complaints table, its row-level
    security policies and the updated_at trigger),
  * the complaint form handleSubmit (ComplaintForm).

Conventions of the embedding:
  * machine strings are Lean String (lists of Char where character-level work
    is needed); timestamps are Nat. The code stamps date_submitted with the
    browser clock (new Date().toISOString()) but created_at and updated_at
    with the database clock (DEFAULT NOW() and the BEFORE UPDATE trigger), so
    a submission takes two clock arguments, clientNow and dbNow, and nothing
    relates them: the two clocks can disagree,
  * nullable SQL columns and optional TS fields are Option, NOT NULL columns
    of a stored row are plain String,
  * each fallible operation returns an Except value paired with the store
    state after the call (the store can change even when the client reports
    an error, and is unchanged when nothing matched).
-/

namespace BarangayCare

/-- Session user as exposed by supabase.auth.getSession(): id, the
user_metadata role and name claims, and email. -/
structure User where
  id : String
  role : Option String
  name : Option String
  email : Option String
deriving DecidableEq

/-- Embeds the admin test user.user_metadata.role === "admin" used by
fetchComplaints, and the SQL policy clause
(auth.jwt() -> 'user_metadata' ->> 'role') = 'admin'. -/
def isAdminUser (u : User) : Bool :=
  u.role == some "admin"

/-- One row of the complaints table (setup-database.sql lines 5-22).
NOT NULL columns are plain String, nullable ones Option String.
status and priority are plain TEXT columns: any string is storable. -/
structure Row where
  id : String
  title : String
  description : String
  category : String
  location : String
  photo : Option String
  contact_info : String
  status : String
  priority : String
  date_submitted : Nat
  admin_notes : Option String
  respondent : Option String
  user_id : Option String
  user_name : Option String
  created_at : Nat
  updated_at : Nat
deriving DecidableEq

/-- The camelCase client record produced by the snake_case transform in
fetchComplaints and addComplaint. -/
structure Complaint where
  id : String
  title : String
  description : String
  category : String
  location : String
  photo : Option String
  contactInfo : String
  status : String
  priority : String
  dateSubmitted : Nat
  adminNotes : Option String
  respondent : Option String
  userId : Option String
  userName : Option String
deriving DecidableEq

/-- Field-by-field snake_case to camelCase transform used by fetchComplaints
and by the response mapping in addComplaint. -/
def transformComplaint (r : Row) : Complaint :=
  { id := r.id
    title := r.title
    description := r.description
    category := r.category
    location := r.location
    photo := r.photo
    contactInfo := r.contact_info
    status := r.status
    priority := r.priority
    dateSubmitted := r.date_submitted
    adminNotes := r.admin_notes
    respondent := r.respondent
    userId := r.user_id
    userName := r.user_name }

/-- The store plus a count of realtime change events published so far.
Supabase realtime (the channel subscribed to postgres_changes on the
complaints table) emits one event per committed row insert or update;
pubs counts those emissions. -/
structure SysState where
  rows : List Row
  pubs : Nat
deriving DecidableEq

/-- Client-visible failures of the complaint operations.
notLoggedIn embeds the "You must be logged in ..." early returns;
notNullViolation embeds a NOT NULL constraint rejection of an insert
(surfaced by the code as the generic "Failed to submit complaint");
rlsViolation embeds a row-level-security rejection of an insert;
noSingleRow embeds PostgREST error PGRST116 raised by .single() when the
statement touched zero (or several) rows — for an update keyed on the
primary key this is the not-found signal (surfaced as the generic
"Failed to update complaint"). -/
inductive DbErr where
  | notLoggedIn
  | notNullViolation
  | rlsViolation
  | noSingleRow
deriving DecidableEq

/-! ### Anonymous identity allocator (addComplaint lines 622-641) -/

/-- Character list of the fixed handle text "Anonymous". -/
def anonChars : List Char := ['A','n','o','n','y','m','o','u','s']

/-- Digit-string value, as parseInt computes it on a run of decimal digits. -/
def natOfDigits (cs : List Char) : Nat :=
  cs.foldl (fun n c => 10 * n + (c.toNat - 48)) 0

/-- Fuel-driven decimal printer; with fuel above n this is the standard
decimal representation produced by JavaScript Number.prototype.toString. -/
def natReprCore : Nat → Nat → List Char
  | 0, _ => []
  | fuel + 1, n =>
    if n < 10 then [Nat.digitChar n]
    else natReprCore fuel (n / 10) ++ [Nat.digitChar (n % 10)]

/-- Decimal representation of n (JavaScript nextNumber.toString()). -/
def natRepr (n : Nat) : List Char := natReprCore (n + 1) n

/-- JavaScript String.prototype.padStart(3, "0") on a character list. -/
def pad3 (cs : List Char) : List Char :=
  if cs.length < 3 then List.replicate (3 - cs.length) '0' ++ cs else cs

/-- The handle the allocator builds for counter value n, the template
literal Anonymous plus nextNumber.toString().padStart(3, "0"). -/
def anonHandle (n : Nat) : String :=
  String.mk (anonChars ++ pad3 (natRepr n))

/-- First match of the pattern Anonymous followed by at least one digit,
returning the maximal digit run after it — the capture group of the
JavaScript regular expression used on lastGuest.user_name. The scan moves
right one character when the text does not match at the current start. -/
def anonScan : List Char → Option (List Char)
  | [] => none
  | c :: cs =>
    if anonChars.isPrefixOf (c :: cs) then
      let ds := ((c :: cs).drop 9).takeWhile Char.isDigit
      if ds.isEmpty then anonScan cs else some ds
    else anonScan cs

/-- Row filter of the allocator read: user_id IS NULL and user_name LIKE
the pattern Anonymous followed by anything (false on a NULL user_name). -/
def isGuestRow (r : Row) : Bool :=
  r.user_id.isNone &&
    (match r.user_name with
     | some nm => anonChars.isPrefixOf nm.data
     | none => false)

/-- The query ORDER BY created_at DESC LIMIT 1 over the guest rows: the
guest row with the greatest created_at (the earlier row wins a tie, which
the database leaves unspecified). -/
def latestGuestRow : List Row → Option Row
  | [] => none
  | r :: rs =>
    match latestGuestRow rs with
    | none => some r
    | some best => if best.created_at ≤ r.created_at then some r else some best

/-- The guest filter composed with the latest-row pick: the value the
allocator SELECT returns (none when the store holds no guest row, in which
case .single() errors and the destructured lastGuest is absent). -/
def lastGuest (rows : List Row) : Option Row :=
  latestGuestRow (rows.filter isGuestRow)

/-- nextNumber of addComplaint: 1 when there is no previous guest row, no
user_name, an empty user_name (falsy in the truthiness test) or no regular
expression match; otherwise the parsed captured digits plus one. -/
def nextGuestNumber (rows : List Row) : Nat :=
  match lastGuest rows with
  | none => 1
  | some r =>
    match r.user_name with
    | none => 1
    | some nm =>
      if nm.isEmpty then 1
      else
        match anonScan nm.data with
        | none => 1
        | some ds => natOfDigits ds + 1

/-- The handle addComplaint assigns to a guest submission: the non-atomic
read-then-increment over the current store contents. -/
def nextGuestName (rows : List Row) : String :=
  anonHandle (nextGuestNumber rows)

/-! ### Authorization (row-level security policies of setup-database.sql) -/

/-- INSERT policies: "Users can insert their own complaints" (auth.uid() =
user_id) or "Guests can insert complaints" (user_id IS NULL); permissive
policies combine with OR. With no session auth.uid() is NULL and the SQL
comparison to user_id is not true. -/
def canInsertRow (session : Option User) (r : Row) : Bool :=
  (match session with
   | some u => r.user_id == some u.id
   | none => false)
  || r.user_id.isNone

/-- UPDATE policies: "Users can update their own complaints" (auth.uid() =
user_id; despite the "(limited fields)" comment the policy constrains no
column) or "Admins can update all complaints" (admin role claim). -/
def canUpdateRow (u : User) (r : Row) : Bool :=
  r.user_id == some u.id || isAdminUser u

/-! ### Read path (fetchComplaints lines 536-595) -/

/-- Insertion step of the ORDER BY date_submitted DESC sort. -/
def insertByDate (r : Row) : List Row → List Row
  | [] => [r]
  | x :: xs =>
    if x.date_submitted ≤ r.date_submitted then r :: x :: xs
    else x :: insertByDate r xs

/-- The ORDER BY date_submitted DESC clause of the fetch query. -/
def sortByDateDesc (rows : List Row) : List Row :=
  rows.foldr insertByDate []

/-- Scope of the fetch query: admins read every row (the admin SELECT
policy), anyone else gets the added .eq("user_id", user.id) filter, which
coincides with the owner SELECT policy. -/
def visibleRows (u : User) (rows : List Row) : List Row :=
  if isAdminUser u then rows
  else rows.filter (fun r => r.user_id == some u.id)

/-- fetchComplaints: with no session the complaint list is set empty and
the query is never issued; otherwise the scoped, date-ordered rows are
transformed to camelCase. -/
def fetchComplaints (session : Option User) (st : SysState) : List Complaint :=
  match session with
  | none => []
  | some u => (sortByDateDesc (visibleRows u st.rows)).map transformComplaint

/-! ### Create path (addComplaint lines 597-718) -/

/-- JavaScript a || b over an optional string: an absent or empty left
operand (both falsy) yields the right operand. -/
def jsOr (a : Option String) (b : String) : String :=
  match a with
  | some s => if s.isEmpty then b else s
  | none => b

/-- The submission payload, Omit of the client Complaint over id and
dateSubmitted. The five required text fields are Option here because the
runtime may omit them: JSON serialization drops an undefined property, so
the database default (and the NOT NULL constraint) decides the outcome. -/
structure Payload where
  title : Option String
  description : Option String
  category : Option String
  location : Option String
  photo : Option String
  contactInfo : Option String
  status : Option String
  priority : Option String
  adminNotes : Option String
  respondent : Option String
deriving DecidableEq

/-- The five NOT NULL text columns of the insert, present or not. -/
def requiredFields (p : Payload) :
    Option (String × String × String × String × String) :=
  match p.title, p.description, p.category, p.location, p.contactInfo with
  | some t, some d, some c, some l, some ci => some (t, d, c, l, ci)
  | _, _, _, _, _ => none

/-- Owner resolution of addComplaint: the guard rejects a call with no
user and no guest flag; the guest branch is tested first and assigns a
NULL user_id plus the freshly read anonymous handle; otherwise the name
falls through user_metadata.name, email, "Unknown User". -/
def resolveIdentity (session : Option User) (guestMode : Bool)
    (rows : List Row) : Option (Option String × String) :=
  if guestMode then some (none, nextGuestName rows)
  else
    match session with
    | some u => some (some u.id, jsOr u.name (jsOr u.email "Unknown User"))
    | none => none

/-- Second awaited phase of addComplaint: build the snake_case row from
the payload and the already-resolved owner (status and priority fall back
to the column defaults pending and medium when the payload omits them),
then insert it under the NOT NULL constraints and the INSERT policies.
date_submitted is stamped with the browser clock clientNow, as the code
supplies new Date().toISOString(); created_at and updated_at take their
DEFAULT NOW() column values at the database clock dbNow; the two clocks
are independent. A successful insert appends the row and publishes one
realtime event. -/
def insertComplaintRow (session : Option User) (uid : Option String)
    (uname : String) (p : Payload) (st : SysState) (clientNow dbNow : Nat)
    (freshId : String) : Except DbErr Row × SysState :=
  match requiredFields p with
  | none => (.error .notNullViolation, st)
  | some (t, d, c, l, ci) =>
    let r : Row :=
      { id := freshId
        title := t
        description := d
        category := c
        location := l
        photo := p.photo
        contact_info := ci
        status := p.status.getD "pending"
        priority := p.priority.getD "medium"
        date_submitted := clientNow
        admin_notes := p.adminNotes
        respondent := p.respondent
        user_id := uid
        user_name := some uname
        created_at := dbNow
        updated_at := dbNow }
    if canInsertRow session r then
      (.ok r, ⟨st.rows ++ [r], st.pubs + 1⟩)
    else
      (.error .rlsViolation, st)

/-- addComplaint: resolve the identity (for a guest this performs the
allocator SELECT, a first awaited database call), then run the INSERT (a
second, separate awaited call) stamping the browser clock clientNow into
date_submitted and the database clock dbNow into created_at and
updated_at. Between the two awaits another submission may commit: nothing
makes the read-then-increment atomic. -/
def addComplaint (session : Option User) (guestMode : Bool) (p : Payload)
    (st : SysState) (clientNow dbNow : Nat) (freshId : String) :
    Except DbErr Row × SysState :=
  match resolveIdentity session guestMode st.rows with
  | none => (.error .notLoggedIn, st)
  | some (uid, uname) =>
    insertComplaintRow session uid uname p st clientNow dbNow freshId

/-! ### Update path (updateComplaint lines 720-780) -/

/-- Partial of the client Complaint restricted to the ten fields the
update handler copies into dbUpdates; userId, userName and dateSubmitted
are never copied, so an update cannot touch them. -/
structure Patch where
  title : Option String
  description : Option String
  category : Option String
  location : Option String
  photo : Option String
  contactInfo : Option String
  status : Option String
  priority : Option String
  adminNotes : Option String
  respondent : Option String
deriving DecidableEq

/-- The patch with every field absent. -/
def emptyPatch : Patch :=
  { title := none, description := none, category := none, location := none
    photo := none, contactInfo := none, status := none, priority := none
    adminNotes := none, respondent := none }

/-- A patch carrying only a status value, as the admin panel sends for a
status change. -/
def statusPatch (s : String) : Patch := { emptyPatch with status := some s }

/-- A patch carrying only a priority value. -/
def priorityPatch (s : String) : Patch := { emptyPatch with priority := some s }

/-- Column update for a nullable column: a present patch field replaces
the column value, an absent one leaves the stored value. -/
def patchOpt (a : Option String) (b : Option String) : Option String :=
  match a with
  | some v => some v
  | none => b

/-- SQL UPDATE of one row under the dbUpdates object: a present patch field
replaces the column, an absent one leaves it; the BEFORE UPDATE trigger
update_updated_at_column sets updated_at to the statement clock. -/
def applyPatch (u : Patch) (now : Nat) (r : Row) : Row :=
  { r with
    title := u.title.getD r.title
    description := u.description.getD r.description
    category := u.category.getD r.category
    location := u.location.getD r.location
    photo := patchOpt u.photo r.photo
    contact_info := u.contactInfo.getD r.contact_info
    status := u.status.getD r.status
    priority := u.priority.getD r.priority
    admin_notes := patchOpt u.adminNotes r.admin_notes
    respondent := patchOpt u.respondent r.respondent
    updated_at := now }

/-- updateComplaint: reject a call with no session, then run UPDATE ...
WHERE id matches, restricted to rows the UPDATE policies let the caller
touch. Every touched row is rewritten (publishing one realtime event per
row); .single() then demands exactly one returned row, so zero touched
rows surface as the PGRST116 error with the store unchanged. -/
def updateComplaint (session : Option User) (cid : String) (u : Patch)
    (st : SysState) (now : Nat) : Except DbErr Row × SysState :=
  match session with
  | none => (.error .notLoggedIn, st)
  | some caller =>
    let hits := st.rows.filter (fun r => r.id == cid && canUpdateRow caller r)
    let rows2 := st.rows.map
      (fun r => if r.id == cid && canUpdateRow caller r then applyPatch u now r else r)
    match hits with
    | [r] => (.ok (applyPatch u now r), ⟨rows2, st.pubs + 1⟩)
    | _ => (.error .noSingleRow, ⟨rows2, st.pubs + hits.length⟩)

/-! ### Complaint form (ComplaintForm handleSubmit) -/

/-- The dispute subset: categories whose form shows the respondent field. -/
def formRequiresRespondent (category : String) : Bool :=
  category == "civil-disputes" || category == "minor-criminal"

/-- The payload handleSubmit builds: status pending, priority high for the
emergency category and medium otherwise, respondent forwarded only for the
dispute subset. Requiredness of the respondent input is a form-markup
concern and is not part of this function. -/
def formPayload (title description category location contactInfo : String)
    (photo : Option String) (respondent : String) : Payload :=
  { title := some title
    description := some description
    category := some category
    location := some location
    photo := photo
    contactInfo := some contactInfo
    status := some "pending"
    priority := some (if category == "emergency" then "high" else "medium")
    adminNotes := none
    respondent := if formRequiresRespondent category then some respondent else none }

/-! ### Concrete data used by closed theorems -/

/-- A resident (non-admin) session user. -/
def residentDemo : User :=
  { id := "res-1", role := none, name := some "Maria", email := none }

/-- An admin session user. -/
def adminDemo : User :=
  { id := "adm-1", role := some "admin", name := some "Ana", email := none }

/-- A well-formed guest submission payload. -/
def guestPayloadDemo : Payload :=
  { title := some "Broken light", description := some "Post 3 is dark"
    category := some "infrastructure", location := some "Zone 2"
    photo := none, contactInfo := some "0917"
    status := some "pending", priority := some "medium"
    adminNotes := none, respondent := none }

/-- A dispute-category payload with the respondent omitted. -/
def disputeNoRespondentDemo : Payload :=
  { title := some "Boundary dispute", description := some "Fence moved"
    category := some "civil-disputes", location := some "Zone 1"
    photo := none, contactInfo := some "0917"
    status := some "pending", priority := some "medium"
    adminNotes := none, respondent := none }

/-- A dispute-category payload with the respondent supplied. -/
def disputeWithRespondentDemo : Payload :=
  { disputeNoRespondentDemo with respondent := some "Jose" }

/-- A payload whose required title is missing. -/
def noTitleDemo : Payload := { guestPayloadDemo with title := none }

/-- A payload carrying a status outside the documented enum. -/
def weirdStatusDemo : Payload :=
  { guestPayloadDemo with
      status := some "not-a-real-status"
      priority := some "urgent-ish" }

/-- A stored complaint owned by the resident residentDemo. -/
def rowDemo : Row :=
  { id := "cid-1", title := "t", description := "d", category := "c",
    location := "l", photo := none, contact_info := "ci", status := "pending",
    priority := "medium", date_submitted := 1, admin_notes := none,
    respondent := none, user_id := some "res-1", user_name := some "Maria",
    created_at := 1, updated_at := 1 }

/-- The row a guest submission of guestPayloadDemo against a fresh store
produces (client and database clocks both 1, generated id g-1). -/
def guestRowDemo : Row :=
  { id := "g-1", title := "Broken light", description := "Post 3 is dark",
    category := "infrastructure", location := "Zone 2", photo := none,
    contact_info := "0917", status := "pending", priority := "medium",
    date_submitted := 1, admin_notes := none, respondent := none,
    user_id := none, user_name := some "Anonymous001",
    created_at := 1, updated_at := 1 }

/-- The row the guest submission of weirdStatusDemo against a fresh store
produces (client and database clocks both 1, generated id w-3). -/
def weirdRowDemo : Row :=
  { guestRowDemo with
      id := "w-3"
      status := "not-a-real-status"
      priority := "urgent-ish" }

/-- The row a guest submission against a fresh store produces when the
browser clock reads 10 while the database clock reads 5. -/
def skewedGuestRowDemo : Row :=
  { guestRowDemo with
      id := "g-2"
      date_submitted := 10
      created_at := 5
      updated_at := 5 }

/-! ## Supporting lemmas -/

theorem digitChar_toNat {d : Nat} (h : d < 10) :
    (Nat.digitChar d).toNat = 48 + d := by
  interval_cases d <;> decide

theorem digitChar_isDigit {d : Nat} (h : d < 10) :
    (Nat.digitChar d).isDigit = true := by
  interval_cases d <;> decide

theorem natOfDigits_append_singleton (a : List Char) (c : Char) :
    natOfDigits (a ++ [c]) = 10 * natOfDigits a + (c.toNat - 48) := by
  simp [natOfDigits, List.foldl_append]

theorem natOfDigits_natReprCore : ∀ fuel n, n < fuel →
    natOfDigits (natReprCore fuel n) = n := by
  intro fuel
  induction fuel with
  | zero => intro n h; omega
  | succ fuel ih =>
    intro n h
    rw [natReprCore]
    by_cases h10 : n < 10
    · simp only [h10, if_true]
      simp [natOfDigits, digitChar_toNat h10]
    · simp only [h10, if_false]
      rw [natOfDigits_append_singleton]
      have hd : n / 10 < fuel := by
        have := Nat.div_lt_self (by omega : 0 < n) (by omega : 1 < 10)
        omega
      rw [ih _ hd, digitChar_toNat (Nat.mod_lt n (by omega))]
      omega

theorem natOfDigits_natRepr (n : Nat) : natOfDigits (natRepr n) = n :=
  natOfDigits_natReprCore (n + 1) n (Nat.lt_succ_self n)

theorem natReprCore_digits : ∀ fuel n c, c ∈ natReprCore fuel n →
    c.isDigit = true := by
  intro fuel
  induction fuel with
  | zero => intro n c h; simp [natReprCore] at h
  | succ fuel ih =>
    intro n c h
    rw [natReprCore] at h
    by_cases h10 : n < 10
    · simp only [h10, if_true, List.mem_singleton] at h
      subst h; exact digitChar_isDigit h10
    · simp only [h10, if_false, List.mem_append, List.mem_singleton] at h
      rcases h with h | h
      · exact ih _ _ h
      · subst h; exact digitChar_isDigit (Nat.mod_lt n (by omega))

theorem natReprCore_ne_nil (fuel n : Nat) (h : n < fuel) :
    natReprCore fuel n ≠ [] := by
  cases fuel with
  | zero => omega
  | succ fuel =>
    rw [natReprCore]
    by_cases h10 : n < 10 <;> simp [h10]

theorem natRepr_digits (n : Nat) : ∀ c ∈ natRepr n, c.isDigit = true :=
  fun c h => natReprCore_digits (n + 1) n c h

theorem natRepr_ne_nil (n : Nat) : natRepr n ≠ [] :=
  natReprCore_ne_nil (n + 1) n (Nat.lt_succ_self n)

theorem pad3_digits (cs : List Char) (h : ∀ c ∈ cs, c.isDigit = true) :
    ∀ c ∈ pad3 cs, c.isDigit = true := by
  intro c hc
  unfold pad3 at hc
  split at hc
  · rcases List.mem_append.mp hc with h0 | h1
    · have := List.eq_of_mem_replicate h0
      subst this; decide
    · exact h c h1
  · exact h c hc

theorem pad3_ne_nil (cs : List Char) (h : cs ≠ []) : pad3 cs ≠ [] := by
  unfold pad3
  split
  · simp [h]
  · exact h

theorem natOfDigits_replicate_zero (k : Nat) (cs : List Char) :
    natOfDigits (List.replicate k '0' ++ cs) = natOfDigits cs := by
  induction k with
  | zero => simp
  | succ k ih =>
    simp only [List.replicate_succ, List.cons_append]
    simpa [natOfDigits] using ih

theorem natOfDigits_pad3 (cs : List Char) :
    natOfDigits (pad3 cs) = natOfDigits cs := by
  unfold pad3
  split
  · exact natOfDigits_replicate_zero _ cs
  · rfl

theorem anonScan_anon_append (ds : List Char) (hne : ds ≠ [])
    (hdig : ∀ c ∈ ds, c.isDigit = true) :
    anonScan (anonChars ++ ds) = some ds := by
  have hpre : anonChars.isPrefixOf (anonChars ++ ds) = true := by
    rw [List.isPrefixOf_iff_prefix]; exact List.prefix_append _ _
  have hdrop : (anonChars ++ ds).drop 9 = ds := List.drop_left anonChars ds
  have htake : ds.takeWhile Char.isDigit = ds := by
    rw [List.takeWhile_eq_self_iff]; exact hdig
  have hemp : ds.isEmpty = false := by
    simp [List.isEmpty_iff]; exact hne
  show anonScan ('A' :: (['n','o','n','y','m','o','u','s'] ++ ds)) = some ds
  rw [anonScan]
  simp only [show ('A' :: (['n','o','n','y','m','o','u','s'] ++ ds))
      = anonChars ++ ds from rfl]
  rw [hpre]
  simp [hdrop, htake, hemp]

theorem anonScan_anonHandle (n : Nat) :
    anonScan (anonHandle n).data = some (pad3 (natRepr n)) := by
  show anonScan (anonChars ++ pad3 (natRepr n)) = some (pad3 (natRepr n))
  exact anonScan_anon_append _ (pad3_ne_nil _ (natRepr_ne_nil n))
    (pad3_digits _ (natRepr_digits n))

theorem handle_roundtrip (n : Nat) :
    (anonScan (anonHandle n).data).map natOfDigits = some n := by
  rw [anonScan_anonHandle]
  simp [natOfDigits_pad3, natOfDigits_natRepr]

theorem anonHandle_isEmpty (n : Nat) : (anonHandle n).isEmpty = false := by
  rw [Bool.eq_false_iff]
  intro h
  have h2 := (String.isEmpty_iff _).mp h
  have h3 : (anonHandle n).data = ("" : String).data := by rw [h2]
  simp only [anonHandle] at h3
  simp at h3
  exact absurd h3.1 (by decide)

theorem nextGuestNumber_of_lastGuest (rows : List Row) (r : Row) (n : Nat)
    (hlast : lastGuest rows = some r)
    (hname : r.user_name = some (anonHandle n)) :
    nextGuestNumber rows = n + 1 := by
  unfold nextGuestNumber
  simp only [hlast, hname, anonHandle_isEmpty, anonScan_anonHandle]
  simp [natOfDigits_pad3, natOfDigits_natRepr]

theorem mem_insertByDate {a r : Row} {l : List Row} :
    a ∈ insertByDate r l ↔ a = r ∨ a ∈ l := by
  induction l with
  | nil => simp [insertByDate]
  | cons x xs ih =>
    rw [insertByDate]
    split
    · simp [List.mem_cons]
    · simp [List.mem_cons, ih]
      tauto

theorem mem_sortByDateDesc {a : Row} {l : List Row} :
    a ∈ sortByDateDesc l ↔ a ∈ l := by
  induction l with
  | nil => simp [sortByDateDesc]
  | cons x xs ih =>
    rw [show sortByDateDesc (x :: xs) = insertByDate x (sortByDateDesc xs) from rfl,
      mem_insertByDate, ih]
    simp [List.mem_cons]

theorem requiredFields_eq_none {p : Payload}
    (h : p.title = none ∨ p.description = none ∨ p.category = none
      ∨ p.location = none ∨ p.contactInfo = none) :
    requiredFields p = none := by
  unfold requiredFields
  cases h1 : p.title <;> cases h2 : p.description <;> cases h3 : p.category <;>
    cases h4 : p.location <;> cases h5 : p.contactInfo <;> simp_all

theorem getD_getD (o : Option String) (x : String) :
    o.getD (o.getD x) = o.getD x := by
  cases o <;> rfl

theorem patchOpt_patchOpt (a b : Option String) :
    patchOpt a (patchOpt a b) = patchOpt a b := by
  cases a <;> rfl

theorem applyPatch_id (u : Patch) (now : Nat) (r : Row) :
    (applyPatch u now r).id = r.id := rfl

theorem applyPatch_date_submitted (u : Patch) (now : Nat) (r : Row) :
    (applyPatch u now r).date_submitted = r.date_submitted := rfl

theorem applyPatch_updated_at (u : Patch) (now : Nat) (r : Row) :
    (applyPatch u now r).updated_at = now := rfl

theorem applyPatch_applyPatch (u : Patch) (t1 t2 : Nat) (r : Row) :
    applyPatch u t2 (applyPatch u t1 r)
      = { applyPatch u t1 r with updated_at := t2 } := by
  simp [applyPatch, Row.mk.injEq, getD_getD, patchOpt_patchOpt]

theorem canUpdateRow_admin {u : User} (h : isAdminUser u = true) (r : Row) :
    canUpdateRow u r = true := by
  simp [canUpdateRow, h]

theorem updateComplaint_single_hit (caller : User) (cid : String) (p : Patch)
    (st : SysState) (now : Nat) (r0 : Row)
    (hhits : st.rows.filter (fun r => r.id == cid && canUpdateRow caller r) = [r0]) :
    updateComplaint (some caller) cid p st now
      = (.ok (applyPatch p now r0),
         ⟨st.rows.map (fun r => if r.id == cid && canUpdateRow caller r
             then applyPatch p now r else r),
          st.pubs + 1⟩) := by
  simp only [updateComplaint, hhits]

theorem updateComplaint_some_rows (caller : User) (cid : String) (p : Patch)
    (st : SysState) (now : Nat) :
    (updateComplaint (some caller) cid p st now).2.rows
      = st.rows.map (fun r => if r.id == cid && canUpdateRow caller r
          then applyPatch p now r else r) := by
  simp only [updateComplaint]
  split <;> rfl

theorem updateComplaint_ok_shape {caller : User} {cid : String} {p : Patch}
    {st : SysState} {now : Nat} {row : Row}
    (h : (updateComplaint (some caller) cid p st now).1 = .ok row) :
    ∃ r0, r0 ∈ st.rows ∧ row = applyPatch p now r0 := by
  simp only [updateComplaint] at h
  split at h
  · rename_i r0 heq
    simp only at h
    injection h with h2
    refine ⟨r0, ?_, h2.symm⟩
    have hmem : r0 ∈ st.rows.filter (fun r => r.id == cid && canUpdateRow caller r) := by
      rw [heq]
      exact List.mem_singleton_self r0
    exact (List.mem_filter.mp hmem).1
  · simp at h

theorem addComplaint_ok_fields {sess : Option User} {gm : Bool} {p : Payload}
    {st : SysState} {cnow dnow : Nat} {fid : String} {row : Row}
    (h : (addComplaint sess gm p st cnow dnow fid).1 = .ok row) :
    ∃ uid uname, resolveIdentity sess gm st.rows = some (uid, uname)
      ∧ row.status = p.status.getD "pending"
      ∧ row.priority = p.priority.getD "medium"
      ∧ row.respondent = p.respondent
      ∧ row.date_submitted = cnow
      ∧ row.updated_at = dnow
      ∧ row.created_at = dnow
      ∧ row.user_id = uid
      ∧ row.user_name = some uname := by
  unfold addComplaint at h
  split at h
  · simp at h
  · rename_i pr uid uname heq
    unfold insertComplaintRow at h
    split at h
    · simp at h
    · rename_i tup t d c l ci heq2
      simp only [] at h
      split at h
      · simp only at h
        injection h with h2
        subst h2
        exact ⟨uid, uname, heq, rfl, rfl, rfl, rfl, rfl, rfl, rfl, rfl⟩
      · simp at h

theorem addComplaint_rows_cases (sess : Option User) (gm : Bool) (p : Payload)
    (st : SysState) (cnow dnow : Nat) (fid : String) :
    (addComplaint sess gm p st cnow dnow fid).2.rows = st.rows
      ∨ ∃ row, (addComplaint sess gm p st cnow dnow fid).1 = .ok row
          ∧ (addComplaint sess gm p st cnow dnow fid).2.rows = st.rows ++ [row] := by
  unfold addComplaint insertComplaintRow
  split
  · left; rfl
  · split
    · left; rfl
    · simp only []
      split
      · right; exact ⟨_, rfl, rfl⟩
      · left; rfl

/-! ## Claims -/

/-- Claim C1. The claim asserts that concurrent guest submissions always
receive pairwise distinct handles because the allocator increments and
reads its counter atomically. The code has no such counter: it SELECTs the
latest guest handle in one awaited call and INSERTs in a later one, and
the complaints table puts no uniqueness constraint on user_name. In the
interleaving where both submissions perform their allocator read before
either insert commits, both compute the handle Anonymous002 on a store
whose latest guest handle is Anonymous001, and both inserts commit: the
final store holds duplicate handles. -/
theorem concurrent_guest_handles_collide :
    ((addComplaint none true guestPayloadDemo ⟨[], 0⟩ 1 1 "id-1").2).rows.map Row.user_name
        = [some "Anonymous001"]
      ∧ nextGuestName ((addComplaint none true guestPayloadDemo ⟨[], 0⟩ 1 1 "id-1").2).rows
        = "Anonymous002"
      ∧ ((insertComplaintRow none none
            (nextGuestName ((addComplaint none true guestPayloadDemo ⟨[], 0⟩ 1 1 "id-1").2).rows)
            guestPayloadDemo
            ((insertComplaintRow none none
              (nextGuestName ((addComplaint none true guestPayloadDemo ⟨[], 0⟩ 1 1 "id-1").2).rows)
              guestPayloadDemo
              (addComplaint none true guestPayloadDemo ⟨[], 0⟩ 1 1 "id-1").2 2 2 "id-A").2)
            3 3 "id-B").2).rows.map Row.user_name
        = [some "Anonymous001", some "Anonymous002", some "Anonymous002"] := by
  refine ⟨by decide, by decide, by decide⟩

/-- Claim C2: sequentially, against a fresh sequence, the first two guest
submissions receive the handles Anonymous001 and Anonymous002 in order,
and the two are distinct; a handle is the fixed prefix plus the
zero-padded counter, and the parse of any handle recovers the exact
counter value (so the allocator map from counter to handle is injective
and sequentially produced handles never repeat); past three digits the
width grows instead of wrapping, as the value 1000 shows. -/
theorem sequential_guest_handles :
    (((addComplaint none true guestPayloadDemo ⟨[], 0⟩ 1 1 "id-1").1).toOption.map Row.user_name
        = some (some "Anonymous001")
      ∧ (((addComplaint none true guestPayloadDemo
            (addComplaint none true guestPayloadDemo ⟨[], 0⟩ 1 1 "id-1").2
            2 2 "id-2").1).toOption.map Row.user_name)
        = some (some "Anonymous002")
      ∧ (some "Anonymous001" : Option String) ≠ some "Anonymous002")
    ∧ (∀ n, (anonScan (anonHandle n).data).map natOfDigits = some n)
    ∧ anonHandle 1 = "Anonymous001"
    ∧ anonHandle 1000 = "Anonymous1000" := by
  exact ⟨⟨by decide, by decide, by decide⟩, handle_roundtrip, by decide, by decide⟩

/-- Claim C3: every read of the complaint list is scoped to the caller.
With no session the result is always empty regardless of store contents;
an admin session receives exactly the transforms of all stored rows; a
non-admin session receives exactly the transforms of the rows whose
user_id equals the caller id, and consequently never a record owned by
anyone else. fetchComplaints returns a list in every case, so a
disallowed read yields an empty result rather than an error. -/
theorem read_scoping :
    (∀ st, fetchComplaints none st = [])
    ∧ (∀ u st c, isAdminUser u = true →
        (c ∈ fetchComplaints (some u) st ↔ ∃ r ∈ st.rows, transformComplaint r = c))
    ∧ (∀ u st c, isAdminUser u = false →
        (c ∈ fetchComplaints (some u) st ↔
          ∃ r ∈ st.rows, r.user_id = some u.id ∧ transformComplaint r = c))
    ∧ (∀ u st c, isAdminUser u = false → c ∈ fetchComplaints (some u) st →
        c.userId = some u.id) := by
  have hnone : ∀ st : SysState, fetchComplaints none st = [] := fun _ => rfl
  have hadm : ∀ (u : User) (st : SysState) (c : Complaint), isAdminUser u = true →
      (c ∈ fetchComplaints (some u) st ↔ ∃ r ∈ st.rows, transformComplaint r = c) := by
    intro u st c h
    simp [fetchComplaints, visibleRows, h, List.mem_map, mem_sortByDateDesc]
  have hres : ∀ (u : User) (st : SysState) (c : Complaint), isAdminUser u = false →
      (c ∈ fetchComplaints (some u) st ↔
        ∃ r ∈ st.rows, r.user_id = some u.id ∧ transformComplaint r = c) := by
    intro u st c h
    simp [fetchComplaints, visibleRows, h, List.mem_map, mem_sortByDateDesc,
      List.mem_filter, beq_iff_eq]
    tauto
  refine ⟨hnone, hadm, hres, ?_⟩
  intro u st c h hc
  obtain ⟨r, _, huid, htr⟩ := (hres u st c h).mp hc
  subst htr
  exact huid

/-- Witness for read_scoping at a concrete one-row store: the sessionless
read is empty, the admin read satisfies the membership characterisation,
and a resident read only surfaces complaints carrying the resident id. -/
theorem read_scoping_witness :
    fetchComplaints none ⟨[rowDemo], 0⟩ = []
      ∧ (transformComplaint rowDemo ∈ fetchComplaints (some adminDemo) ⟨[rowDemo], 0⟩ ↔
          ∃ r ∈ (⟨[rowDemo], 0⟩ : SysState).rows,
            transformComplaint r = transformComplaint rowDemo)
      ∧ (transformComplaint rowDemo ∈ fetchComplaints (some residentDemo) ⟨[rowDemo], 0⟩ →
          (transformComplaint rowDemo).userId = some residentDemo.id) :=
  ⟨read_scoping.1 ⟨[rowDemo], 0⟩,
   read_scoping.2.1 adminDemo ⟨[rowDemo], 0⟩ (transformComplaint rowDemo) rfl,
   read_scoping.2.2.2 residentDemo ⟨[rowDemo], 0⟩ (transformComplaint rowDemo) rfl⟩

/-- Claim C4: the claim states that every non-admin update of status,
priority or adminNotes fails with a permission error leaving the record
unchanged. The code contradicts it (and the policy file contradicts its
own "limited fields" comment): updateComplaint only requires a session,
and the UPDATE policy for owners constrains no column, so the non-admin
resident updates the status, the priority and the admin notes of an owned
complaint and each update commits and is acknowledged. -/
theorem resident_updates_own_status_succeeds :
    isAdminUser residentDemo = false
      ∧ (updateComplaint (some residentDemo) "cid-1" (statusPatch "resolved")
          ⟨[rowDemo], 0⟩ 7).1
        = .ok (applyPatch (statusPatch "resolved") 7 rowDemo)
      ∧ (updateComplaint (some residentDemo) "cid-1" (statusPatch "resolved")
          ⟨[rowDemo], 0⟩ 7).2.rows.map Row.status = ["resolved"]
      ∧ (updateComplaint (some residentDemo) "cid-1" (priorityPatch "high")
          ⟨[rowDemo], 0⟩ 7).2.rows.map Row.priority = ["high"]
      ∧ (updateComplaint (some residentDemo) "cid-1"
          { emptyPatch with adminNotes := some "note" }
          ⟨[rowDemo], 0⟩ 7).2.rows.map Row.admin_notes = [some "note"] := by
  refine ⟨by decide, rfl, by decide, by decide, by decide⟩

/-- Claim C5 counterexample: the claim states that a submission whose
category requires a respondent but omits it fails with a validation
error. The respondent column is nullable and addComplaint validates
nothing, so the dispute-category submission without a respondent is
accepted and stored. -/
theorem dispute_without_respondent_accepted :
    formRequiresRespondent "civil-disputes" = true
      ∧ ((addComplaint (some residentDemo) false disputeNoRespondentDemo
            ⟨[], 0⟩ 5 5 "cid-9").1).toOption.map Row.respondent = some none
      ∧ ((addComplaint (some residentDemo) false disputeNoRespondentDemo
            ⟨[], 0⟩ 5 5 "cid-9").2).rows.length = 1 := by
  refine ⟨by decide, by decide, by decide⟩

/-- Claim C5 as amended: a submission missing any of the five required
text fields is rejected by the store NOT NULL constraints (the code
surfaces it as its generic submission failure) with the store unchanged;
the respondent is never validated by addComplaint (its requiredness for
dispute categories lives only in the form markup), and a submission that
carries a respondent succeeds with the respondent stored and transformed
back intact. -/
theorem submit_validation_amended :
    (∀ sess p st cnow dnow fid,
        (p.title = none ∨ p.description = none ∨ p.category = none
          ∨ p.location = none ∨ p.contactInfo = none) →
        addComplaint sess true p st cnow dnow fid = (.error .notNullViolation, st)
          ∧ ∀ u : User, addComplaint (some u) false p st cnow dnow fid
              = (.error .notNullViolation, st))
    ∧ (∀ (u : User) p st cnow dnow fid t d c l ci r,
        requiredFields p = some (t, d, c, l, ci) → p.respondent = some r →
        ∃ row, (addComplaint (some u) false p st cnow dnow fid).1 = .ok row
          ∧ row.respondent = some r
          ∧ (transformComplaint row).respondent = some r
          ∧ row ∈ (addComplaint (some u) false p st cnow dnow fid).2.rows) := by
  constructor
  · intro sess p st cnow dnow fid h
    constructor
    · simp [addComplaint, resolveIdentity, insertComplaintRow, requiredFields_eq_none h]
    · intro u
      simp [addComplaint, resolveIdentity, insertComplaintRow, requiredFields_eq_none h]
  · intro u p st cnow dnow fid t d c l ci r hreq hresp
    simp only [addComplaint, resolveIdentity, insertComplaintRow, hreq,
      Bool.false_eq_true, if_false]
    rw [if_pos (by simp [canInsertRow])]
    exact ⟨_, rfl, by simp [hresp], by simp [transformComplaint, hresp], by simp⟩

/-- Witness for submit_validation_amended: the title-less payload is
rejected with the store untouched, and the dispute payload carrying the
respondent Jose is accepted and round-trips the respondent. -/
theorem submit_validation_amended_witness :
    addComplaint none true noTitleDemo ⟨[], 0⟩ 3 3 "w-1"
        = (.error .notNullViolation, ⟨[], 0⟩)
      ∧ ∃ row, (addComplaint (some residentDemo) false disputeWithRespondentDemo
            ⟨[], 0⟩ 4 4 "w-2").1 = .ok row
          ∧ row.respondent = some "Jose"
          ∧ (transformComplaint row).respondent = some "Jose"
          ∧ row ∈ (addComplaint (some residentDemo) false disputeWithRespondentDemo
              ⟨[], 0⟩ 4 4 "w-2").2.rows :=
  ⟨(submit_validation_amended.1 none noTitleDemo ⟨[], 0⟩ 3 3 "w-1" (Or.inl rfl)).1,
   submit_validation_amended.2 residentDemo disputeWithRespondentDemo ⟨[], 0⟩ 4 4 "w-2"
     "Boundary dispute" "Fence moved" "civil-disputes" "Zone 1" "0917" "Jose" rfl rfl⟩

/-- Claim C6: an admin mutation whose target id resolves to no stored
complaint fails with the no-row error of .single() — the not-found signal
for a primary-key update — and leaves the store unchanged. -/
theorem admin_update_missing_id_not_found (u : User) (cid : String)
    (p : Patch) (st : SysState) (now : Nat) (_hadmin : isAdminUser u = true)
    (habs : ∀ r ∈ st.rows, r.id ≠ cid) :
    updateComplaint (some u) cid p st now = (.error .noSingleRow, st) := by
  have hpred : ∀ r ∈ st.rows, (r.id == cid && canUpdateRow u r) = false := by
    intro r hr
    simp [habs r hr]
  have hfil : st.rows.filter (fun r => r.id == cid && canUpdateRow u r) = [] := by
    rw [List.filter_eq_nil_iff]
    intro r hr
    simp [hpred r hr]
  have hmap : st.rows.map
      (fun r => if r.id == cid && canUpdateRow u r then applyPatch p now r else r)
      = st.rows := by
    have := List.map_congr_left (l := st.rows)
      (f := fun r => if r.id == cid && canUpdateRow u r then applyPatch p now r else r)
      (g := id) (fun r hr => by simp [hpred r hr])
    rw [this, List.map_id]
  simp only [updateComplaint, hfil, hmap]
  rfl

/-- Witness for admin_update_missing_id_not_found: the admin sets a
status on an id absent from a one-row store and receives the no-row
error while the store stays as it was. -/
theorem admin_update_missing_id_not_found_witness :
    updateComplaint (some adminDemo) "no-such-id" (statusPatch "resolved")
        ⟨[rowDemo], 0⟩ 9
      = (.error .noSingleRow, ⟨[rowDemo], 0⟩) :=
  admin_update_missing_id_not_found adminDemo "no-such-id" (statusPatch "resolved")
    ⟨[rowDemo], 0⟩ 9 rfl (by decide)

/-- Claim C7: when an admin applies the same patch twice in a row to the
one complaint matching the id (statusPatch and priorityPatch are the
status and priority instances), each call publishes exactly one realtime
event, both calls succeed, and the second call changes nothing in the
store besides setting updated_at of the matched row to the new clock: the
returned record of the second call equals the first one with only
updated_at replaced. -/
theorem repeat_same_update_idempotent (u : User) (cid : String) (p : Patch)
    (st : SysState) (t1 t2 : Nat) (hadmin : isAdminUser u = true)
    (hone : (st.rows.filter (fun r => r.id == cid)).length = 1) :
    (updateComplaint (some u) cid p st t1).2.pubs = st.pubs + 1
    ∧ (updateComplaint (some u) cid p (updateComplaint (some u) cid p st t1).2 t2).2.pubs
        = (updateComplaint (some u) cid p st t1).2.pubs + 1
    ∧ (updateComplaint (some u) cid p (updateComplaint (some u) cid p st t1).2 t2).2.rows
        = (updateComplaint (some u) cid p st t1).2.rows.map
            (fun r => if r.id == cid then { r with updated_at := t2 } else r)
    ∧ (∃ r1 r2, (updateComplaint (some u) cid p st t1).1 = .ok r1
        ∧ (updateComplaint (some u) cid p (updateComplaint (some u) cid p st t1).2 t2).1
            = .ok r2
        ∧ r2 = { r1 with updated_at := t2 }) := by
  have hpq : ∀ r : Row, (r.id == cid && canUpdateRow u r) = (r.id == cid) := by
    intro r
    simp [canUpdateRow_admin hadmin]
  obtain ⟨r0, hr0⟩ := List.length_eq_one.mp hone
  have h1 : st.rows.filter (fun r => r.id == cid && canUpdateRow u r) = [r0] := by
    rw [List.filter_congr (fun r _ => hpq r)]
    exact hr0
  have hq0 : (r0.id == cid) = true := by
    have : r0 ∈ st.rows.filter (fun r => r.id == cid) := by
      rw [hr0]
      exact List.mem_singleton_self r0
    exact (List.mem_filter.mp this).2
  have e1 := updateComplaint_single_hit u cid p st t1 r0 h1
  set f : Row → Row :=
    fun r => if r.id == cid && canUpdateRow u r then applyPatch p t1 r else r with hf
  have hq0p : r0.id = cid := by simpa using hq0
  have hfr0 : f r0 = applyPatch p t1 r0 := by
    simp [hf, hq0p, canUpdateRow_admin hadmin]
  have hfid : ∀ r : Row, (f r).id = r.id := by
    intro r
    simp only [hf]
    split
    · exact applyPatch_id p t1 r
    · rfl
  have h2 : (st.rows.map f).filter (fun r => r.id == cid && canUpdateRow u r)
      = [applyPatch p t1 r0] := by
    rw [List.filter_congr (fun r _ => hpq r), List.filter_map]
    have : ∀ r ∈ st.rows, ((fun x => x.id == cid) ∘ f) r = (r.id == cid) := by
      intro r _
      simp [Function.comp, hfid r]
    rw [List.filter_congr this, hr0]
    simp [hfr0]
  have e2 := updateComplaint_single_hit u cid p
    ⟨st.rows.map f, st.pubs + 1⟩ t2 (applyPatch p t1 r0) h2
  rw [e1]
  refine ⟨rfl, ?_, ?_, ?_⟩
  · rw [e2]
  · rw [e2]
    show (st.rows.map f).map
        (fun r => if r.id == cid && canUpdateRow u r then applyPatch p t2 r else r)
      = (st.rows.map f).map
        (fun r => if r.id == cid then { r with updated_at := t2 } else r)
    apply List.map_congr_left
    intro r1 hr1
    obtain ⟨r, hrmem, hrf⟩ := List.mem_map.mp hr1
    rw [hpq r1]
    by_cases hcase : (r1.id == cid) = true
    · rw [if_pos hcase, if_pos hcase]
      have hid1 : r1.id = r.id := by
        rw [← hrf, hfid r]
      have hqr : (r.id == cid) = true := by
        rw [hid1] at hcase
        exact hcase
      have hqrp : r.id = cid := by simpa using hqr
      have : r1 = applyPatch p t1 r := by
        rw [← hrf]
        simp [hf, hqrp, canUpdateRow_admin hadmin]
      rw [this, applyPatch_applyPatch]
    · rw [if_neg hcase, if_neg hcase]
  · refine ⟨applyPatch p t1 r0, applyPatch p t2 (applyPatch p t1 r0), rfl, ?_, ?_⟩
    · rw [e2]
    · exact applyPatch_applyPatch p t1 t2 r0

/-- Witness for repeat_same_update_idempotent: the admin re-applies the
status resolved to the one stored complaint at clocks 5 and 6. -/
theorem repeat_same_update_idempotent_witness :
    (updateComplaint (some adminDemo) "cid-1" (statusPatch "resolved")
        ⟨[rowDemo], 0⟩ 5).2.pubs = 0 + 1
      ∧ (updateComplaint (some adminDemo) "cid-1" (statusPatch "resolved")
          (updateComplaint (some adminDemo) "cid-1" (statusPatch "resolved")
            ⟨[rowDemo], 0⟩ 5).2 6).2.pubs
        = (updateComplaint (some adminDemo) "cid-1" (statusPatch "resolved")
            ⟨[rowDemo], 0⟩ 5).2.pubs + 1
      ∧ (updateComplaint (some adminDemo) "cid-1" (statusPatch "resolved")
          (updateComplaint (some adminDemo) "cid-1" (statusPatch "resolved")
            ⟨[rowDemo], 0⟩ 5).2 6).2.rows
        = (updateComplaint (some adminDemo) "cid-1" (statusPatch "resolved")
            ⟨[rowDemo], 0⟩ 5).2.rows.map
              (fun r => if r.id == "cid-1" then { r with updated_at := 6 } else r)
      ∧ (∃ r1 r2, (updateComplaint (some adminDemo) "cid-1" (statusPatch "resolved")
            ⟨[rowDemo], 0⟩ 5).1 = .ok r1
          ∧ (updateComplaint (some adminDemo) "cid-1" (statusPatch "resolved")
              (updateComplaint (some adminDemo) "cid-1" (statusPatch "resolved")
                ⟨[rowDemo], 0⟩ 5).2 6).1 = .ok r2
          ∧ r2 = { r1 with updated_at := 6 }) :=
  repeat_same_update_idempotent adminDemo "cid-1" (statusPatch "resolved")
    ⟨[rowDemo], 0⟩ 5 6 rfl (by decide)

/-- Claim C8 counterexample: the claim states that date_submitted is at
most updated_at at all times. The code stamps date_submitted with the
browser clock but created_at and updated_at with the database clock, and
nothing relates the two: a guest submission made while the browser clock
reads 10 and the database clock reads 5 commits a record whose
updated_at is strictly below its date_submitted. -/
theorem client_clock_skew_breaks_invariant :
    (addComplaint none true guestPayloadDemo ⟨[], 0⟩ 10 5 "g-2").1
        = .ok skewedGuestRowDemo
      ∧ skewedGuestRowDemo
          ∈ (addComplaint none true guestPayloadDemo ⟨[], 0⟩ 10 5 "g-2").2.rows
      ∧ skewedGuestRowDemo.updated_at < skewedGuestRowDemo.date_submitted := by
  refine ⟨rfl, by decide, by decide⟩

/-- Claim C8 as amended: an update never touches any row date_submitted
(the patch carries no such column), so it is set exactly once at
creation, where it equals the browser clock while updated_at and
created_at equal the database clock; every row an update touches gets
updated_at set to the statement clock. The invariant date_submitted at
most updated_at does not hold unconditionally — the two fields come from
different clocks — but it is preserved by a submission whenever the
browser clock is not ahead of the database clock, and by an update
whenever the statement clock is not behind any stored date_submitted. -/
theorem timestamps_amended :
    (∀ sess cid p st now,
        (updateComplaint sess cid p st now).2.rows.map
            (fun r => (r.id, r.date_submitted))
          = st.rows.map (fun r => (r.id, r.date_submitted)))
    ∧ (∀ sess gm p st cnow dnow fid row,
        (addComplaint sess gm p st cnow dnow fid).1 = .ok row →
          row.date_submitted = cnow ∧ row.updated_at = dnow)
    ∧ (∀ sess cid p st now row,
        (updateComplaint sess cid p st now).1 = .ok row → row.updated_at = now)
    ∧ (∀ sess cid p st now r2, r2 ∈ (updateComplaint sess cid p st now).2.rows →
        r2 ∈ st.rows ∨ r2.updated_at = now)
    ∧ (∀ sess gm p st cnow dnow fid,
        (∀ r ∈ st.rows, r.date_submitted ≤ r.updated_at) →
        cnow ≤ dnow →
        ∀ r2 ∈ (addComplaint sess gm p st cnow dnow fid).2.rows,
          r2.date_submitted ≤ r2.updated_at)
    ∧ (∀ sess cid p st now,
        (∀ r ∈ st.rows, r.date_submitted ≤ r.updated_at) →
        (∀ r ∈ st.rows, r.date_submitted ≤ now) →
        ∀ r2 ∈ (updateComplaint sess cid p st now).2.rows,
          r2.date_submitted ≤ r2.updated_at) := by
  have hrows : ∀ (caller : User) cid p (st : SysState) now r2,
      r2 ∈ (updateComplaint (some caller) cid p st now).2.rows →
      ∃ r ∈ st.rows, r2 = r ∨ r2 = applyPatch p now r := by
    intro caller cid p st now r2 h2
    rw [updateComplaint_some_rows] at h2
    obtain ⟨r, hrmem, hrf⟩ := List.mem_map.mp h2
    refine ⟨r, hrmem, ?_⟩
    by_cases hc : (r.id == cid && canUpdateRow caller r) = true
    · right; rw [← hrf, if_pos hc]
    · left; rw [← hrf, if_neg hc]
  refine ⟨?_, ?_, ?_, ?_, ?_, ?_⟩
  · intro sess cid p st now
    cases sess with
    | none => rfl
    | some caller =>
      rw [updateComplaint_some_rows, List.map_map]
      apply List.map_congr_left
      intro r _
      simp only [Function.comp]
      split
      · rfl
      · rfl
  · intro sess gm p st cnow dnow fid row h
    obtain ⟨_, _, _, _, _, _, h5, h6, _⟩ := addComplaint_ok_fields h
    exact ⟨h5, h6⟩
  · intro sess cid p st now row h
    cases sess with
    | none => simp [updateComplaint] at h
    | some caller =>
      obtain ⟨r0, _, hrow⟩ := updateComplaint_ok_shape h
      rw [hrow]
      rfl
  · intro sess cid p st now r2 h2
    cases sess with
    | none => left; exact h2
    | some caller =>
      obtain ⟨r, hrmem, hcase⟩ := hrows caller cid p st now r2 h2
      rcases hcase with h | h
      · left; rw [h]; exact hrmem
      · right; rw [h]; rfl
  · intro sess gm p st cnow dnow fid hinv hcd r2 h2
    rcases addComplaint_rows_cases sess gm p st cnow dnow fid
      with hsame | ⟨row, hok, happ⟩
    · rw [hsame] at h2
      exact hinv r2 h2
    · rw [happ] at h2
      rcases List.mem_append.mp h2 with h | h
      · exact hinv r2 h
      · obtain ⟨_, _, _, _, _, _, h5, h6, _⟩ := addComplaint_ok_fields hok
        rw [List.mem_singleton.mp h, h5, h6]
        exact hcd
  · intro sess cid p st now hinv hclock r2 h2
    cases sess with
    | none => exact hinv r2 h2
    | some caller =>
      obtain ⟨r, hrmem, hcase⟩ := hrows caller cid p st now r2 h2
      rcases hcase with h | h
      · rw [h]; exact hinv r hrmem
      · rw [h, applyPatch_date_submitted, applyPatch_updated_at]
        exact hclock r hrmem

/-- Witness for timestamps_amended at concrete inputs: an admin update
leaves the id and date_submitted projection of the one-row store intact,
the concrete guest submission stamps date_submitted with the browser
clock and updated_at with the database clock, a submission under a
non-skewed pair of clocks preserves the invariant, and so does the
concrete update. -/
theorem timestamps_amended_witness :
    (updateComplaint (some adminDemo) "cid-1" (statusPatch "resolved")
        ⟨[rowDemo], 0⟩ 9).2.rows.map (fun r => (r.id, r.date_submitted))
      = [rowDemo].map (fun r => (r.id, r.date_submitted))
    ∧ (guestRowDemo.date_submitted = 1 ∧ guestRowDemo.updated_at = 1)
    ∧ (∀ r2 ∈ (addComplaint none true guestPayloadDemo ⟨[], 0⟩ 1 2 "g-1").2.rows,
        r2.date_submitted ≤ r2.updated_at)
    ∧ (∀ r2 ∈ (updateComplaint (some adminDemo) "cid-1" (statusPatch "resolved")
          ⟨[rowDemo], 0⟩ 9).2.rows, r2.date_submitted ≤ r2.updated_at) :=
  ⟨timestamps_amended.1 (some adminDemo) "cid-1" (statusPatch "resolved") ⟨[rowDemo], 0⟩ 9,
   timestamps_amended.2.1 none true guestPayloadDemo ⟨[], 0⟩ 1 1 "g-1" guestRowDemo rfl,
   timestamps_amended.2.2.2.2.1 none true guestPayloadDemo ⟨[], 0⟩ 1 2 "g-1"
     (by decide) (by decide),
   timestamps_amended.2.2.2.2.2 (some adminDemo) "cid-1" (statusPatch "resolved")
     ⟨[rowDemo], 0⟩ 9 (by decide) (by decide)⟩

/-- Claim C9: when the browser guestMode flag is set, addComplaint runs
identically with and without an authenticated session — the guest branch
wins and the session identity is ignored for owner resolution — and a
successful guest submission stores a NULL user_id together with the
freshly allocated anonymous handle as user_name. -/
theorem guest_mode_precedence (u : User) (p : Payload) (st : SysState)
    (cnow dnow : Nat) (fid : String) :
    addComplaint (some u) true p st cnow dnow fid
        = addComplaint none true p st cnow dnow fid
    ∧ ∀ row, (addComplaint (some u) true p st cnow dnow fid).1 = .ok row →
        row.user_id = none ∧ row.user_name = some (nextGuestName st.rows) := by
  constructor
  · unfold addComplaint insertComplaintRow
    simp only [resolveIdentity, if_true]
    split
    · rfl
    · simp [canInsertRow]
  · intro row h
    obtain ⟨uid, uname, hres, _, _, _, _, _, _, h7, h8⟩ := addComplaint_ok_fields h
    have hres2 : (some (none, nextGuestName st.rows) : Option (Option String × String))
        = some (uid, uname) := by
      rw [← hres]; rfl
    injection hres2 with hpair
    injection hpair with ha hb
    rw [h7, h8, ← ha, ← hb]
    exact ⟨rfl, rfl⟩

/-- Witness for guest_mode_precedence: with an authenticated resident and
the guest flag set, the call coincides with the sessionless call and the
produced record is the ownerless guest row with the first handle. -/
theorem guest_mode_precedence_witness :
    addComplaint (some residentDemo) true guestPayloadDemo ⟨[], 0⟩ 1 1 "g-1"
        = addComplaint none true guestPayloadDemo ⟨[], 0⟩ 1 1 "g-1"
      ∧ (guestRowDemo.user_id = none
          ∧ guestRowDemo.user_name = some (nextGuestName ([] : List Row))) :=
  ⟨(guest_mode_precedence residentDemo guestPayloadDemo ⟨[], 0⟩ 1 1 "g-1").1,
   (guest_mode_precedence residentDemo guestPayloadDemo ⟨[], 0⟩ 1 1 "g-1").2
     guestRowDemo rfl⟩

/-- Claim C10: neither path validates the status or priority strings —
the columns are plain TEXT with no CHECK constraint, embedded here as
unconstrained String fields. Whatever string the payload or the patch
carries is exactly what the stored record holds after a successful create
or update. -/
theorem status_priority_passthrough :
    (∀ sess gm p st cnow dnow fid s row, p.status = some s →
        (addComplaint sess gm p st cnow dnow fid).1 = .ok row → row.status = s)
    ∧ (∀ sess gm p st cnow dnow fid s row, p.priority = some s →
        (addComplaint sess gm p st cnow dnow fid).1 = .ok row → row.priority = s)
    ∧ (∀ (caller : User) cid pa st now s row, pa.status = some s →
        (updateComplaint (some caller) cid pa st now).1 = .ok row → row.status = s)
    ∧ (∀ (caller : User) cid pa st now s row, pa.priority = some s →
        (updateComplaint (some caller) cid pa st now).1 = .ok row → row.priority = s) := by
  refine ⟨?_, ?_, ?_, ?_⟩
  · intro sess gm p st cnow dnow fid s row hs h
    obtain ⟨_, _, _, h2, _⟩ := addComplaint_ok_fields h
    rw [h2, hs]
    rfl
  · intro sess gm p st cnow dnow fid s row hs h
    obtain ⟨_, _, _, _, h3, _⟩ := addComplaint_ok_fields h
    rw [h3, hs]
    rfl
  · intro caller cid pa st now s row hs h
    obtain ⟨r0, _, hrow⟩ := updateComplaint_ok_shape h
    rw [hrow]
    show pa.status.getD r0.status = s
    rw [hs]
    rfl
  · intro caller cid pa st now s row hs h
    obtain ⟨r0, _, hrow⟩ := updateComplaint_ok_shape h
    rw [hrow]
    show pa.priority.getD r0.priority = s
    rw [hs]
    rfl

/-- Witness for status_priority_passthrough: a submission carrying the
status not-a-real-status and the priority urgent-ish is stored verbatim,
and an admin update to the status banana is stored verbatim. -/
theorem status_priority_passthrough_witness :
    weirdRowDemo.status = "not-a-real-status"
      ∧ weirdRowDemo.priority = "urgent-ish"
      ∧ (applyPatch (statusPatch "banana") 7 rowDemo).status = "banana" :=
  ⟨status_priority_passthrough.1 none true weirdStatusDemo ⟨[], 0⟩ 1 1 "w-3"
      "not-a-real-status" weirdRowDemo rfl rfl,
   status_priority_passthrough.2.1 none true weirdStatusDemo ⟨[], 0⟩ 1 1 "w-3"
      "urgent-ish" weirdRowDemo rfl rfl,
   status_priority_passthrough.2.2.1 adminDemo "cid-1" (statusPatch "banana")
      ⟨[rowDemo], 0⟩ 7 "banana" (applyPatch (statusPatch "banana") 7 rowDemo)
      rfl rfl⟩

end BarangayCare
